import Mathlib

/-!
Verification of the BTX Welcome Packet generator (`app.py`).

The development shallowly embeds the three pieces of logic of the program:

* `HubSpotClient` (`app.py` lines 101-163): four CRM REST calls, each
  performing `response.raise_for_status()` and then extracting JSON.
  HTTP traffic is modelled by a `CrmEnv` mapping each request to its
  response (`status` code plus already-parsed JSON body);
  `raise_for_status` raises exactly on statuses in `[400, 600)`,
  as the `requests` library does.
* `fill_btx_welcome_packet` (`app.py` lines 166-206): the pure field-value
  computation, translated verbatim, together with the PDF operations.
  The pypdf engine is modelled by its documented semantics: `PdfReader`
  either fails or yields a document (a list of pages, each a list of
  named form fields); `clone_document_from_reader` copies every page;
  `update_page_form_field_values` overwrites, on the given page only,
  the value of each field whose name occurs in the supplied mapping.
* the generate branch of `main_app` (`app.py` lines 306-405): the linear
  workflow search -> company -> contact -> fill -> download, with its
  `except` clauses mapping `HTTPError` 401 / 404 / other and the final
  catch-all `except Exception` to user-facing outcomes.

JSON string-or-null values are modelled as `Option String` (`none` is JSON
null); a Python dict is an association list and `dict.get` is `dictGet`.
Python `str(x)` on such a value is `pyStr` (`str(None) = "None"`), and
`str.strip()` is `pyStrip`.
-/

namespace BTXApp

/-- A JSON value that is either a string or null (`none` = JSON null). -/
abbrev JVal := Option String

/-- Python `str(v)` for a string-or-null JSON value: `str(None)` is `"None"`. -/
def pyStr : JVal → String
  | some s => s
  | none => "None"

/-- Python `d.get(k, default)` on a string-keyed dict. -/
def dictGet (d : List (String × JVal)) (k : String) (default : JVal) : JVal :=
  match d.lookup k with
  | some v => v
  | none => default

/-- Characters stripped by Python `str.strip()` (ASCII whitespace). -/
def pyIsSpace (c : Char) : Bool :=
  c = ' ' || c = '\t' || c = '\n' || c = '\r' || c = '\x0b' || c = '\x0c'

/-- Drop leading whitespace characters from a character list. -/
def dropLeadingWs : List Char → List Char
  | [] => []
  | c :: cs => if pyIsSpace c then dropLeadingWs cs else c :: cs

/-- Python `s.strip()`: remove leading and trailing whitespace. -/
def pyStrip (s : String) : String :=
  ⟨dropLeadingWs ((dropLeadingWs s.data.reverse).reverse)⟩

/-- Python `s.replace(' ', '_')` (single-character pattern, so a map). -/
def replaceSpaces (s : String) : String :=
  ⟨s.data.map (fun c => if c = ' ' then '_' else c)⟩

/-- A CRM company JSON object: `id` plus a `properties` object
(`app.py` uses `company_data['id']` and `company_data['properties']`). -/
structure Company where
  id : String
  properties : List (String × JVal)
deriving DecidableEq

/-- A CRM contact JSON object (`contact_data['properties']`). -/
structure Contact where
  properties : List (String × JVal)
deriving DecidableEq

/-- One entry of an association listing: `results[i]['toObjectId']`. -/
structure Association where
  toObjectId : String
deriving DecidableEq

/-- Body of `POST /crm/v3/objects/companies/search`: a `results` array. -/
structure SearchResults where
  results : List Company
deriving DecidableEq

/-- Body of the association listing: a `results` array. -/
structure AssociationResults where
  results : List Association
deriving DecidableEq

/-- An HTTP response: status code and parsed JSON body. -/
structure Resp (α : Type) where
  status : Nat
  body : α
deriving DecidableEq

/-- The exception raised by `response.raise_for_status()`. -/
structure HttpError where
  status : Nat
deriving DecidableEq

/-- The CRM server, mapping each request the client can make to its
response.  One field per endpoint used by `HubSpotClient`. -/
structure CrmEnv where
  companyById : String → Resp Company
  searchByName : String → Resp SearchResults
  associations : String → Resp AssociationResults
  contactById : String → Resp Contact

/-- `response.raise_for_status()` followed by `response.json()`:
raises `HTTPError` exactly when the status is in `[400, 600)`. -/
def raise_for_status {α : Type} (r : Resp α) : Except HttpError α :=
  if 400 ≤ r.status ∧ r.status < 600 then .error ⟨r.status⟩ else .ok r.body

/-- URL built by `HubSpotClient.get_company_by_id` (`app.py` line 114). -/
def get_company_by_id_url (company_id : String) : String :=
  "https://api.hubapi.com/crm/v3/objects/companies/" ++ company_id

/-- Query parameters sent by `get_company_by_id` (`app.py` line 115). -/
def get_company_by_id_params : List (String × String) :=
  [("properties", "name,btx_customer__")]

/-- The `properties` array of the search payload (`app.py` line 154). -/
def search_company_by_name_properties : List String :=
  ["name", "btx_customer__"]

/-- `HubSpotClient.get_company_by_id` (`app.py` lines 112-119). -/
def get_company_by_id (env : CrmEnv) (company_id : String) :
    Except HttpError Company :=
  raise_for_status (env.companyById company_id)

/-- `HubSpotClient.get_contact_by_id` (`app.py` lines 134-141). -/
def get_contact_by_id (env : CrmEnv) (contact_id : String) :
    Except HttpError Contact :=
  raise_for_status (env.contactById contact_id)

/-- `HubSpotClient.get_company_contacts` (`app.py` lines 121-132): list the
company's contact associations; if the `results` array is non-empty, fetch
the first association's target contact, else return `None`. -/
def get_company_contacts (env : CrmEnv) (company_id : String) :
    Except HttpError (Option Contact) :=
  match raise_for_status (env.associations company_id) with
  | .error e => .error e
  | .ok a =>
    match a.results with
    | [] => .ok none
    | assoc :: _ =>
      match get_contact_by_id env assoc.toObjectId with
      | .error e => .error e
      | .ok c => .ok (some c)

/-- `HubSpotClient.search_company_by_name` (`app.py` lines 143-163): POST the
contains-token search and return the first result, or `None` when the
`results` array is empty or absent. -/
def search_company_by_name (env : CrmEnv) (company_name : String) :
    Except HttpError (Option Company) :=
  match raise_for_status (env.searchByName company_name) with
  | .error e => .error e
  | .ok r => .ok r.results.head?

/-- A calendar date, as produced by `datetime.now()`. -/
structure Date where
  year : Nat
  month : Nat
  day : Nat
deriving DecidableEq

/-- Full English month name, as `strftime("%B")` renders it. -/
def monthName : Nat → String
  | 1 => "January"
  | 2 => "February"
  | 3 => "March"
  | 4 => "April"
  | 5 => "May"
  | 6 => "June"
  | 7 => "July"
  | 8 => "August"
  | 9 => "September"
  | 10 => "October"
  | 11 => "November"
  | 12 => "December"
  | _ => ""

/-- Zero-pad a number to two digits (`strftime` `%m`, `%d`). -/
def pad2 (n : Nat) : String :=
  if n < 10 then "0" ++ toString n else toString n

/-- Zero-pad a number to four digits (`strftime` `%Y`). -/
def pad4 (n : Nat) : String :=
  if n < 10 then "000" ++ toString n
  else if n < 100 then "00" ++ toString n
  else if n < 1000 then "0" ++ toString n
  else toString n

/-- `datetime.now().strftime("%B %d, %Y")` (`app.py` line 186). -/
def format_long_date (d : Date) : String :=
  monthName d.month ++ " " ++ pad2 d.day ++ ", " ++ pad4 d.year

/-- `datetime.now().strftime("%Y%m%d")` (`app.py` line 372). -/
def yyyymmdd (d : Date) : String :=
  pad4 d.year ++ pad2 d.month ++ pad2 d.day

/-- The account-team value (`app.py` lines 177-184): `"N/A"` when there is
no contact; otherwise the stripped `f"{firstname} {lastname}"`, with
`"N/A"` substituted when that stripped string is empty. -/
def account_team (contact_data : Option Contact) : String :=
  match contact_data with
  | none => "N/A"
  | some c =>
    let contact_props := c.properties
    let firstname := dictGet contact_props "firstname" (some "")
    let lastname := dictGet contact_props "lastname" (some "")
    let s := pyStrip (pyStr firstname ++ " " ++ pyStr lastname)
    if s = "" then "N/A" else s

/-- The `field_values` dict built by `fill_btx_welcome_packet`
(`app.py` lines 172-193). -/
def fill_field_values (company_data : Company) (contact_data : Option Contact)
    (today : Date) : List (String × JVal) :=
  let props := company_data.properties
  [("Text1", dictGet props "name" (some "N/A")),
   ("Text2", dictGet props "btx_customer__" (some "N/A")),
   ("Text3", some (account_team contact_data)),
   ("Text4", some (format_long_date today))]

/-- A PDF page: its named form fields with their values. -/
structure PdfPage where
  fields : List (String × JVal)
deriving DecidableEq

/-- A parsed PDF document: a list of pages. -/
structure PdfDoc where
  pages : List PdfPage
deriving DecidableEq

/-- pypdf `update_page_form_field_values(page, fv)`: overwrite the value of
each field on `page` whose name occurs in the mapping `fv`; every other
field of the page is untouched. -/
def update_page_form_field_values (page : PdfPage) (fv : List (String × JVal)) :
    PdfPage :=
  ⟨page.fields.map (fun f =>
    match fv.lookup f.1 with
    | some v => (f.1, v)
    | none => f)⟩

/-- `fill_btx_welcome_packet` (`app.py` lines 166-206).  `parsed` is the
outcome of `PdfReader(template_file)`: `.error` when pypdf cannot parse the
template bytes.  `writer.clone_document_from_reader` copies all pages;
`writer.pages[0]` raises `IndexError` on an empty document; the filled
bytes are the cloned pages with the first page's matching fields updated,
returned together with `field_values`. -/
def fill_btx_welcome_packet (parsed : Except String PdfDoc)
    (company_data : Company) (contact_data : Option Contact) (today : Date) :
    Except String (PdfDoc × List (String × JVal)) :=
  let field_values := fill_field_values company_data contact_data today
  match parsed with
  | .error e => .error e
  | .ok doc =>
    match doc.pages with
    | [] => .error "IndexError: sequence index out of range"
    | p0 :: rest =>
      .ok (⟨update_page_form_field_values p0 field_values :: rest⟩, field_values)

/-- Which radio button the user picked (`app.py` lines 284-288). -/
inductive SearchMethod where
  | byName
  | byId
deriving DecidableEq

/-- The observable outcome of one generate attempt in `main_app`
(`app.py` lines 306-405).  `ready` carries the displayed `field_values`,
the download filename, and whether the no-contact warning was shown;
the other constructors are the error paths, `unexpectedFailed` being the
catch-all `except Exception` handler (lines 402-405). -/
inductive Outcome where
  | inputError
  | searchNotFound (companyInput : String)
  | authFailed
  | httpNotFound (companyInput : String)
  | apiFailed (status : Nat)
  | unexpectedFailed (msg : String)
  | ready (fieldValues : List (String × JVal)) (filename : String)
      (noContactWarning : Bool)
deriving DecidableEq

/-- Filename built on success (`app.py` line 372). -/
def make_filename (company_name : String) (today : Date) : String :=
  "BTX_Welcome_Packet_" ++ replaceSpaces company_name ++ "_" ++
    yyyymmdd today ++ ".pdf"

/-- The `except requests.exceptions.HTTPError` clause
(`app.py` lines 390-400): 401 to the auth message, 404 to the not-found
message (mentioning the user's input), anything else to the API-error
message carrying the status. -/
def http_outcome (companyInput : String) (e : HttpError) : Outcome :=
  if e.status = 401 then .authFailed
  else if e.status = 404 then .httpNotFound companyInput
  else .apiFailed e.status

/-- The tail of the generate flow once a company record is in hand
(`app.py` lines 330-388): read `company_data['properties']['name]'`
(a `KeyError` falls to the catch-all), fetch the contact via the
association listing, fill the template, and build the download filename
with `company_name.replace(' ', '_')` (an `AttributeError` when the name
property is JSON null falls to the catch-all). -/
def after_company (env : CrmEnv) (companyInput : String) (company_id : String)
    (company_data : Company) (parsed : Except String PdfDoc) (today : Date) :
    Outcome :=
  match company_data.properties.lookup "name" with
  | none => .unexpectedFailed "KeyError: name"
  | some company_name =>
    match get_company_contacts env company_id with
    | .error e => http_outcome companyInput e
    | .ok contact_data =>
      match fill_btx_welcome_packet parsed company_data contact_data today with
      | .error e => .unexpectedFailed e
      | .ok (_, field_values) =>
        match company_name with
        | none => .unexpectedFailed "AttributeError: NoneType object has no attribute replace"
        | some name_str =>
          .ready field_values (make_filename name_str today) contact_data.isNone

/-- The generate branch of `main_app` (`app.py` lines 306-405): empty input
is rejected; by-name search returning no match is terminal with the
suggestion to use a company ID; otherwise the flow continues with the found
company (by-name uses `company_data['id']` for the association listing,
by-id the user's input). -/
def main_app_generate (env : CrmEnv) (method : SearchMethod)
    (companyInput : String) (parsed : Except String PdfDoc) (today : Date) :
    Outcome :=
  if companyInput = "" then .inputError
  else
    match method with
    | .byName =>
      match search_company_by_name env companyInput with
      | .error e => http_outcome companyInput e
      | .ok none => .searchNotFound companyInput
      | .ok (some company_data) =>
        after_company env companyInput company_data.id company_data parsed today
    | .byId =>
      match get_company_by_id env companyInput with
      | .error e => http_outcome companyInput e
      | .ok company_data =>
        after_company env companyInput companyInput company_data parsed today

/-! ### Concrete fixtures used by witnesses and counterexamples -/

/-- A company record as returned by the CRM for the spec's running example. -/
def acme : Company :=
  ⟨"42", [("name", some "Acme Corp"), ("btx_customer__", some "CUST-9")]⟩

/-- A contact record with both name properties set. -/
def jane : Contact :=
  ⟨[("firstname", some "Jane"), ("lastname", some "Doe"), ("email", some "jane@acme.test")]⟩

/-- First page of a template: the four target fields plus one bystander. -/
def templatePage1 : PdfPage :=
  ⟨[("Text1", some ""), ("Text2", some ""), ("Text3", some ""),
    ("Text4", some ""), ("Logo", some "btx")]⟩

/-- Second page of a template, untouched by filling. -/
def templatePage2 : PdfPage :=
  ⟨[("Terms", some "standard terms")]⟩

/-- A two-page template document. -/
def templateDoc : PdfDoc :=
  ⟨[templatePage1, templatePage2]⟩

/-- The fixed date used by the spec's filename example. -/
def d20250304 : Date := ⟨2025, 3, 4⟩

/-- A CRM in which every call succeeds: the company is `acme`, it has one
associated contact, and that contact is `jane`. -/
def envSuccess : CrmEnv where
  companyById := fun _ => ⟨200, acme⟩
  searchByName := fun _ => ⟨200, ⟨[acme]⟩⟩
  associations := fun _ => ⟨200, ⟨[⟨"7"⟩]⟩⟩
  contactById := fun _ => ⟨200, jane⟩

/-- Like `envSuccess` but the company has no associated contact. -/
def envNoContact : CrmEnv where
  companyById := fun _ => ⟨200, acme⟩
  searchByName := fun _ => ⟨200, ⟨[acme]⟩⟩
  associations := fun _ => ⟨200, ⟨[]⟩⟩
  contactById := fun _ => ⟨200, jane⟩

/-- A CRM whose every response is HTTP 401. -/
def env401 : CrmEnv where
  companyById := fun _ => ⟨401, acme⟩
  searchByName := fun _ => ⟨401, ⟨[]⟩⟩
  associations := fun _ => ⟨401, ⟨[]⟩⟩
  contactById := fun _ => ⟨401, jane⟩

/-- A CRM in which only the final contact fetch returns HTTP 401. -/
def envContact401 : CrmEnv where
  companyById := fun _ => ⟨200, acme⟩
  searchByName := fun _ => ⟨200, ⟨[acme]⟩⟩
  associations := fun _ => ⟨200, ⟨[⟨"7"⟩]⟩⟩
  contactById := fun _ => ⟨401, jane⟩

/-- A CRM whose name search succeeds with zero matches. -/
def envSearchEmpty : CrmEnv where
  companyById := fun _ => ⟨200, acme⟩
  searchByName := fun _ => ⟨200, ⟨[]⟩⟩
  associations := fun _ => ⟨200, ⟨[]⟩⟩
  contactById := fun _ => ⟨200, jane⟩

/-- A CRM whose direct company fetch returns HTTP 404. -/
def env404 : CrmEnv where
  companyById := fun _ => ⟨404, acme⟩
  searchByName := fun _ => ⟨200, ⟨[]⟩⟩
  associations := fun _ => ⟨200, ⟨[]⟩⟩
  contactById := fun _ => ⟨200, jane⟩

/-- A company whose `name` property is present but the empty string and
whose customer-number property is absent. -/
def emptyNameCo : Company :=
  ⟨"43", [("name", some "")]⟩

/-- A contact whose name properties are present but empty. -/
def blankContact : Contact :=
  ⟨[("firstname", some ""), ("lastname", some "")]⟩

/-! ### Helper lemmas -/

/-- Unfolding lemma for `List.lookup` on a cons cell. -/
theorem lookup_cons (k n : String) (x : JVal) (l : List (String × JVal)) :
    List.lookup k ((n, x) :: l) = cond (k == n) (some x) (List.lookup k l) := by
  cases hk : k == n <;> simp [List.lookup, hk]

/-- Reading `Text1` from the built field values gives the company name. -/
theorem fv_lookup_text1 (c : Company) (k : Option Contact) (t : Date) :
    (fill_field_values c k t).lookup "Text1" =
      some (dictGet c.properties "name" (some "N/A")) := rfl

/-- Reading `Text2` from the built field values gives the customer number. -/
theorem fv_lookup_text2 (c : Company) (k : Option Contact) (t : Date) :
    (fill_field_values c k t).lookup "Text2" =
      some (dictGet c.properties "btx_customer__" (some "N/A")) := rfl

/-- Reading `Text3` from the built field values gives the account team. -/
theorem fv_lookup_text3 (c : Company) (k : Option Contact) (t : Date) :
    (fill_field_values c k t).lookup "Text3" = some (some (account_team k)) := rfl

/-- Reading `Text4` from the built field values gives the formatted date. -/
theorem fv_lookup_text4 (c : Company) (k : Option Contact) (t : Date) :
    (fill_field_values c k t).lookup "Text4" =
      some (some (format_long_date t)) := rfl

/-- The field-values dict binds no key other than `Text1`..`Text4`. -/
theorem fv_lookup_other (c : Company) (k : Option Contact) (t : Date) (key : String)
    (n1 : key ≠ "Text1") (n2 : key ≠ "Text2") (n3 : key ≠ "Text3")
    (n4 : key ≠ "Text4") :
    (fill_field_values c k t).lookup key = none := by
  simp only [fill_field_values, lookup_cons, Bool.cond_eq_ite, beq_iff_eq]
  rw [if_neg n1, if_neg n2, if_neg n3, if_neg n4]
  rfl

/-- A 2xx response passes `raise_for_status` and yields its body. -/
theorem raise_for_status_of_200 {α : Type} (r : Resp α) (h : r.status = 200) :
    raise_for_status r = .ok r.body := by
  simp [raise_for_status, h]

/-- A 401 response makes `raise_for_status` raise `HTTPError` 401. -/
theorem raise_for_status_of_401 {α : Type} (r : Resp α) (h : r.status = 401) :
    raise_for_status r = .error ⟨401⟩ := by
  simp [raise_for_status, h]

/-- A 404 response makes `raise_for_status` raise `HTTPError` 404. -/
theorem raise_for_status_of_404 {α : Type} (r : Resp α) (h : r.status = 404) :
    raise_for_status r = .error ⟨404⟩ := by
  simp [raise_for_status, h]

/-- Literal form of `raise_for_status` on a 200 response. -/
theorem raise_for_status_200 {α : Type} (b : α) :
    raise_for_status ⟨200, b⟩ = .ok b := by
  simp [raise_for_status]

/-- Updating a page rewrites a field named in the mapping to the mapping's
value, provided the field exists on the page. -/
theorem lookup_update_of_mem (page : PdfPage) (fv : List (String × JVal))
    (k : String) (v : JVal) (hv : fv.lookup k = some v)
    (hp : (page.fields.lookup k).isSome) :
    (update_page_form_field_values page fv).fields.lookup k = some v := by
  obtain ⟨fs⟩ := page
  simp only [update_page_form_field_values]
  induction fs with
  | nil => simp [List.lookup] at hp
  | cons f tl ih =>
    obtain ⟨n, x⟩ := f
    rw [lookup_cons] at hp
    cases hk : k == n
    · rw [hk, cond_false] at hp
      rcases hfv : fv.lookup n with _ | w <;>
        simp only [List.map_cons, hfv, lookup_cons, hk, cond_false] <;>
        exact ih hp
    · have hkn : k = n := eq_of_beq hk
      subst hkn
      rcases hfv : fv.lookup k with _ | w
      · rw [hfv] at hv
        exact Option.noConfusion hv
      · rw [hfv] at hv
        obtain rfl : w = v := Option.some.inj hv
        simp [List.map_cons, hfv, lookup_cons]

/-- Updating a page leaves a field untouched when its name is not bound in
the mapping. -/
theorem lookup_update_of_not_mem (page : PdfPage) (fv : List (String × JVal))
    (k : String) (h : fv.lookup k = none) :
    (update_page_form_field_values page fv).fields.lookup k =
      page.fields.lookup k := by
  obtain ⟨fs⟩ := page
  simp only [update_page_form_field_values]
  induction fs with
  | nil => rfl
  | cons f tl ih =>
    obtain ⟨n, x⟩ := f
    rcases hfv : fv.lookup n with _ | w
    · simp only [List.map_cons, hfv, lookup_cons]
      cases hk : k == n
      · simp only [cond_false]
        exact ih
      · simp only [cond_true]
    · simp only [List.map_cons, hfv, lookup_cons]
      cases hk : k == n
      · simp only [cond_false]
        exact ih
      · exfalso
        have hkn : k = n := eq_of_beq hk
        rw [hkn, hfv] at h
        exact Option.noConfusion h

/-! ### Claim theorems -/

/-- C1: for every fill invocation, if the contact record is absent, or the
single-space-separated concatenation of the contact's first and last names
is empty after stripping, the `Text3` (account team) field value is
`"N/A"`; otherwise it is the stripped `"first last"` concatenation. -/
theorem c1_account_team_field (company : Company) (today : Date) (c : Contact) :
    ((fill_field_values company none today).lookup "Text3" =
      some (some "N/A")) ∧
    (pyStrip (pyStr (dictGet c.properties "firstname" (some "")) ++ " " ++
        pyStr (dictGet c.properties "lastname" (some ""))) = "" →
      (fill_field_values company (some c) today).lookup "Text3" =
        some (some "N/A")) ∧
    (pyStrip (pyStr (dictGet c.properties "firstname" (some "")) ++ " " ++
        pyStr (dictGet c.properties "lastname" (some ""))) ≠ "" →
      (fill_field_values company (some c) today).lookup "Text3" =
        some (some (pyStrip
          (pyStr (dictGet c.properties "firstname" (some "")) ++ " " ++
           pyStr (dictGet c.properties "lastname" (some "")))))) := by
  refine ⟨rfl, fun h => ?_, fun h => ?_⟩
  · rw [fv_lookup_text3]
    simp [account_team, h]
  · rw [fv_lookup_text3]
    simp [account_team, h]

/-- C1 witness: with `jane` as contact the account-team field is the
stripped concatenation `"Jane Doe"`. -/
theorem c1_witness :
    (fill_field_values acme (some jane) d20250304).lookup "Text3" =
      some (some "Jane Doe") := by
  rw [(c1_account_team_field acme d20250304 jane).2.2 (by decide)]
  decide

/-- C5: when the company record's customer-number property
(`btx_customer__`) is absent, the filled `Text2` value is `"N/A"`. -/
theorem c5_customer_number_default (company : Company)
    (contact : Option Contact) (today : Date)
    (h : company.properties.lookup "btx_customer__" = none) :
    (fill_field_values company contact today).lookup "Text2" =
      some (some "N/A") := by
  rw [fv_lookup_text2]
  simp [dictGet, h]

/-- C5 witness: `emptyNameCo` has no customer-number property, and its
filled `Text2` value is `"N/A"`. -/
theorem c5_witness :
    (fill_field_values emptyNameCo none d20250304).lookup "Text2" =
      some (some "N/A") :=
  c5_customer_number_default emptyNameCo none d20250304 (by decide)

/-- C7: the success outcome's download filename is
`BTX_Welcome_Packet_<name with spaces underscored>_<YYYYMMDD>.pdf`; in
particular company `"Acme Corp"` on 2025-03-04 yields
`BTX_Welcome_Packet_Acme_Corp_20250304.pdf`, both directly and end to end
through the workflow. -/
theorem c7_filename :
    main_app_generate envSuccess .byId "42" (.ok templateDoc) d20250304 =
      .ready (fill_field_values acme (some jane) d20250304)
        "BTX_Welcome_Packet_Acme_Corp_20250304.pdf" false ∧
    (∀ (n : String) (d : Date),
      make_filename n d =
        "BTX_Welcome_Packet_" ++ replaceSpaces n ++ "_" ++ yyyymmdd d ++
          ".pdf") ∧
    make_filename "Acme Corp" ⟨2025, 3, 4⟩ =
      "BTX_Welcome_Packet_Acme_Corp_20250304.pdf" :=
  ⟨by decide, fun _ _ => rfl, by decide⟩

/-- C9 counterexample: the company fetch and the name search do not request
a property called `customer-number`; the requested properties are `name`
and `btx_customer__`. -/
theorem c9_counterexample :
    get_company_by_id_params ≠ [("properties", "name,customer-number")] ∧
    search_company_by_name_properties ≠ ["name", "customer-number"] := by
  exact ⟨by decide, by decide⟩

/-- C9 (amended): the company-by-id fetch issues a GET to
`/crm/v3/objects/companies/{id}` requesting exactly the `name` and
`btx_customer__` properties and no others, and the name search requests
exactly those two properties. -/
theorem c9_amended :
    (∀ company_id : String,
      get_company_by_id_url company_id =
        "https://api.hubapi.com/crm/v3/objects/companies/" ++ company_id) ∧
    get_company_by_id_params = [("properties", "name,btx_customer__")] ∧
    search_company_by_name_properties = ["name", "btx_customer__"] :=
  ⟨fun _ => rfl, rfl, rfl⟩

/-- C10: the `"N/A"` defaults for `Text1` and `Text2` apply only when the
corresponding property key is absent; a key present with any value
(including the empty string or JSON null) is passed through verbatim —
unlike `Text3`, which is defaulted whenever the stripped concatenation is
empty. -/
theorem c10_present_values_verbatim (company : Company)
    (contact : Option Contact) (today : Date) :
    (∀ v : JVal, company.properties.lookup "name" = some v →
      (fill_field_values company contact today).lookup "Text1" = some v) ∧
    (∀ v : JVal, company.properties.lookup "btx_customer__" = some v →
      (fill_field_values company contact today).lookup "Text2" = some v) ∧
    (company.properties.lookup "name" = none →
      (fill_field_values company contact today).lookup "Text1" =
        some (some "N/A")) ∧
    (company.properties.lookup "btx_customer__" = none →
      (fill_field_values company contact today).lookup "Text2" =
        some (some "N/A")) ∧
    (∀ c : Contact, c.properties.lookup "firstname" = some (some "") →
      c.properties.lookup "lastname" = some (some "") →
      (fill_field_values company (some c) today).lookup "Text3" =
        some (some "N/A")) := by
  refine ⟨fun v h => ?_, fun v h => ?_, fun h => ?_, fun h => ?_,
    fun c h1 h2 => ?_⟩
  · rw [fv_lookup_text1]; simp [dictGet, h]
  · rw [fv_lookup_text2]; simp [dictGet, h]
  · rw [fv_lookup_text1]; simp [dictGet, h]
  · rw [fv_lookup_text2]; simp [dictGet, h]
  · rw [fv_lookup_text3]
    have : account_team (some c) = "N/A" := by
      simp only [account_team, dictGet, h1, h2, pyStr]
      rw [if_pos (by decide)]
    rw [this]

/-- C10 witness: `emptyNameCo` carries an explicit empty-string `name`, and
the filled `Text1` value is that empty string, not `"N/A"`. -/
theorem c10_witness :
    (fill_field_values emptyNameCo none d20250304).lookup "Text1" =
      some (some "") :=
  (c10_present_values_verbatim emptyNameCo none d20250304).1 (some "")
    (by decide)

/-- C2: filling a template whose first page carries the four target fields
succeeds, returns the built field values alongside the document, re-reading
each of the four fields of the output yields exactly the returned mapping,
every page after the first is returned unchanged, and every first-page
field other than the four targets keeps its template value. -/
theorem c2_fill_frame (doc : PdfDoc) (p0 : PdfPage) (rest : List PdfPage)
    (company : Company) (contact : Option Contact) (today : Date)
    (hpages : doc.pages = p0 :: rest)
    (h1 : (p0.fields.lookup "Text1").isSome)
    (h2 : (p0.fields.lookup "Text2").isSome)
    (h3 : (p0.fields.lookup "Text3").isSome)
    (h4 : (p0.fields.lookup "Text4").isSome) :
    fill_btx_welcome_packet (.ok doc) company contact today =
      .ok (⟨update_page_form_field_values p0
              (fill_field_values company contact today) :: rest⟩,
           fill_field_values company contact today) ∧
    (∀ k : String, k = "Text1" ∨ k = "Text2" ∨ k = "Text3" ∨ k = "Text4" →
      (update_page_form_field_values p0
        (fill_field_values company contact today)).fields.lookup k =
        (fill_field_values company contact today).lookup k) ∧
    (∀ k : String, k ≠ "Text1" → k ≠ "Text2" → k ≠ "Text3" → k ≠ "Text4" →
      (update_page_form_field_values p0
        (fill_field_values company contact today)).fields.lookup k =
        p0.fields.lookup k) := by
  refine ⟨?_, fun k hk => ?_, fun k n1 n2 n3 n4 => ?_⟩
  · obtain ⟨pgs⟩ := doc
    simp only at hpages
    subst hpages
    rfl
  · rcases hk with rfl | rfl | rfl | rfl
    · rw [fv_lookup_text1]
      exact lookup_update_of_mem p0 _ _ _ (fv_lookup_text1 company contact today) h1
    · rw [fv_lookup_text2]
      exact lookup_update_of_mem p0 _ _ _ (fv_lookup_text2 company contact today) h2
    · rw [fv_lookup_text3]
      exact lookup_update_of_mem p0 _ _ _ (fv_lookup_text3 company contact today) h3
    · rw [fv_lookup_text4]
      exact lookup_update_of_mem p0 _ _ _ (fv_lookup_text4 company contact today) h4
  · exact lookup_update_of_not_mem p0 _ k
      (fv_lookup_other company contact today k n1 n2 n3 n4)

/-- C2 witness: filling the concrete two-page template with `acme` and
`jane` succeeds and returns the updated first page, the unchanged second
page, and the field values. -/
theorem c2_witness :
    fill_btx_welcome_packet (.ok templateDoc) acme (some jane) d20250304 =
      .ok (⟨update_page_form_field_values templatePage1
              (fill_field_values acme (some jane) d20250304) ::
              [templatePage2]⟩,
           fill_field_values acme (some jane) d20250304) :=
  (c2_fill_frame templateDoc templatePage1 [templatePage2] acme (some jane)
    d20250304 rfl (by decide) (by decide) (by decide) (by decide)).1

/-- C3 counterexample: when the template cannot be parsed, the workflow's
outcome is the catch-all `unexpectedFailed` (the generic "Unexpected
Error" handler of `app.py` lines 402-405), not a template-specific
outcome — the program defines no `TemplateError` at all. -/
theorem c3_counterexample :
    main_app_generate envSuccess .byId "42" (.error "EOF marker not found")
        d20250304 =
      .unexpectedFailed "EOF marker not found" := by
  decide

/-- C3 (amended): when the template cannot be parsed, the fill operation
raises an ordinary exception whose message the catch-all handler surfaces:
the workflow aborts to the generic `unexpectedFailed` outcome, not a
template-specific one. -/
theorem c3_generic_unexpected (env : CrmEnv) (input : String) (today : Date)
    (e : String) (company : Company) (nameV : JVal)
    (h0 : input ≠ "")
    (h1 : env.companyById input = ⟨200, company⟩)
    (h2 : company.properties.lookup "name" = some nameV)
    (h3 : env.associations input = ⟨200, ⟨[]⟩⟩) :
    main_app_generate env .byId input (.error e) today =
      .unexpectedFailed e := by
  simp only [main_app_generate, if_neg h0, get_company_by_id, h1,
    raise_for_status_200, after_company, h2, get_company_contacts,
    h3, fill_btx_welcome_packet]

/-- C3 witness for the amended claim: a concrete unparsable template aborts
through the generic handler. -/
theorem c3_witness :
    main_app_generate envNoContact .byId "42" (.error "invalid pdf header")
        d20250304 =
      .unexpectedFailed "invalid pdf header" :=
  c3_generic_unexpected envNoContact "42" d20250304 "invalid pdf header"
    acme (some "Acme Corp") (by decide) rfl (by decide) rfl

/-- C4: an HTTP 401 from any of the four CRM calls — direct company fetch,
name search, association listing, or contact fetch — aborts the attempt to
the `authFailed` (invalid/expired API key) outcome. -/
theorem c4_auth_error_any_call (env : CrmEnv) (input : String) (today : Date)
    (parsed : Except String PdfDoc) (h0 : input ≠ "") :
    ((env.companyById input).status = 401 →
      main_app_generate env .byId input parsed today = .authFailed) ∧
    ((env.searchByName input).status = 401 →
      main_app_generate env .byName input parsed today = .authFailed) ∧
    (∀ (company : Company) (nameV : JVal),
      env.companyById input = ⟨200, company⟩ →
      company.properties.lookup "name" = some nameV →
      (env.associations input).status = 401 →
      main_app_generate env .byId input parsed today = .authFailed) ∧
    (∀ (company : Company) (nameV : JVal) (a : Association)
        (more : List Association),
      env.companyById input = ⟨200, company⟩ →
      company.properties.lookup "name" = some nameV →
      env.associations input = ⟨200, ⟨a :: more⟩⟩ →
      (env.contactById a.toObjectId).status = 401 →
      main_app_generate env .byId input parsed today = .authFailed) := by
  refine ⟨fun h => ?_, fun h => ?_, fun company nameV hc hn h => ?_,
    fun company nameV a more hc hn ha h => ?_⟩
  · have hr := raise_for_status_of_401 (env.companyById input) h
    simp only [main_app_generate, if_neg h0, get_company_by_id, hr]
    rfl
  · have hr := raise_for_status_of_401 (env.searchByName input) h
    simp only [main_app_generate, if_neg h0, search_company_by_name, hr]
    rfl
  · have hr := raise_for_status_of_401 (env.associations input) h
    simp only [main_app_generate, if_neg h0, get_company_by_id, hc,
      raise_for_status_200, after_company, hn, get_company_contacts, hr]
    rfl
  · have hr := raise_for_status_of_401 (env.contactById a.toObjectId) h
    simp only [main_app_generate, if_neg h0, get_company_by_id, hc,
      raise_for_status_200, after_company, hn, get_company_contacts,
      ha, get_contact_by_id, hr]
    rfl

/-- C4 witness: with a CRM where only the final contact fetch returns 401,
the attempt still ends in `authFailed`. -/
theorem c4_witness :
    main_app_generate envContact401 .byId "42" (.ok templateDoc) d20250304 =
      .authFailed :=
  (c4_auth_error_any_call envContact401 "42" d20250304 (.ok templateDoc)
    (by decide)).2.2.2 acme (some "Acme Corp") ⟨"7"⟩ [] rfl (by decide) rfl rfl

/-- C6: a by-name search that succeeds with zero matches ends the attempt
in the dedicated `searchNotFound` outcome (the message suggesting a
direct-ID lookup), while a direct-ID HTTP 404 ends it in the HTTP
error path's `httpNotFound` outcome, and the two outcomes are distinct. -/
theorem c6_notfound_paths (env : CrmEnv) (input : String) (today : Date)
    (parsed : Except String PdfDoc) (h0 : input ≠ "") :
    (env.searchByName input = ⟨200, ⟨[]⟩⟩ →
      main_app_generate env .byName input parsed today =
        .searchNotFound input) ∧
    ((env.companyById input).status = 404 →
      main_app_generate env .byId input parsed today =
        .httpNotFound input) ∧
    (∀ s t : String, Outcome.searchNotFound s ≠ Outcome.httpNotFound t) := by
  refine ⟨fun h => ?_, fun h => ?_, fun s t hst => Outcome.noConfusion hst⟩
  · simp only [main_app_generate, if_neg h0, search_company_by_name, h,
      raise_for_status_200]
    rfl
  · have hr := raise_for_status_of_404 (env.companyById input) h
    simp only [main_app_generate, if_neg h0, get_company_by_id, hr]
    rfl

/-- C6 witness: a concrete zero-match search ends in `searchNotFound` with
the user's input. -/
theorem c6_witness :
    main_app_generate envSearchEmpty .byName "Acme Corp" (.ok templateDoc)
        d20250304 =
      .searchNotFound "Acme Corp" :=
  (c6_notfound_paths envSearchEmpty "Acme Corp" d20250304 (.ok templateDoc)
    (by decide)).1 rfl

/-- C8: when the association listing yields no contact, the workflow
proceeds to filling with the no-contact warning shown, the filled `Text3`
value is `"N/A"`, and the attempt ends in `ready`, not a failure
outcome. -/
theorem c8_contact_absent_proceeds (env : CrmEnv) (input : String)
    (today : Date) (doc : PdfDoc) (p0 : PdfPage) (rest : List PdfPage)
    (company : Company) (name_str : String)
    (h0 : input ≠ "")
    (h1 : env.companyById input = ⟨200, company⟩)
    (h2 : company.properties.lookup "name" = some (some name_str))
    (h3 : env.associations input = ⟨200, ⟨[]⟩⟩)
    (h4 : doc.pages = p0 :: rest) :
    main_app_generate env .byId input (.ok doc) today =
      .ready (fill_field_values company none today)
        (make_filename name_str today) true ∧
    (fill_field_values company none today).lookup "Text3" =
      some (some "N/A") := by
  refine ⟨?_, rfl⟩
  simp only [main_app_generate, if_neg h0, get_company_by_id, h1,
    raise_for_status_200, after_company, h2, get_company_contacts,
    h3, fill_btx_welcome_packet, h4, Option.isNone_none]

/-- C8 witness: the concrete no-contact CRM still reaches `ready` with the
warning flag set and `Text3` defaulted. -/
theorem c8_witness :
    main_app_generate envNoContact .byId "42" (.ok templateDoc) d20250304 =
      .ready (fill_field_values acme none d20250304)
        (make_filename "Acme Corp" d20250304) true :=
  (c8_contact_absent_proceeds envNoContact "42" d20250304 templateDoc
    templatePage1 [templatePage2] acme "Acme Corp" (by decide) rfl (by decide)
    rfl rfl).1

end BTXApp
